import Mathlib

set_option maxRecDepth 100000

/-!
# Smart Scalper trading engine: verification of its core

A shallow embedding of the core decision logic of the Smart Scalper
perpetual-futures trading bot, together with theorems settling the spec's
claims about it.  The embedded pieces are:

* the technical indicators: `SmartScalper.calculate_rsi` and
  `SmartScalper.calculate_macd` from `smart_scalper.py`, and
  `TechnicalIndicators.calculate_rsi` / `TechnicalIndicators.calculate_macd`
  from `utils/indicators.py`;
* the per-position monitoring evaluation of `SmartScalper.check_positions`
  (`check_tick`) and its iteration over a stream of ticks (`simulate`);
* the state effects of `SmartScalper.open_position` / `close_position` on the
  position map, cooldown map and statistics (`open_position`,
  `close_position`);
* the `RiskManager` gate `can_open_position` and its exposure bookkeeping
  `record_trade` / `record_close` from `utils/risk_manager.py`.

Python floats are modelled as exact rationals (`ℚ`).  Python dicts keyed by
symbol or order id are modelled as association lists with in-place update
(`upsert`); a Python dict never holds a key twice, which for the embedding is
the `Nodup` hypothesis on the key list where it matters.  Wall-clock times
(`datetime.now()`) are passed in explicitly as rational timestamps.
-/

namespace Scalper

/-- Python `xs[-n:]` for `n ≥ 1`: the last `n` elements (the whole list when
`n ≥ |xs|`). -/
def lastN (n : ℕ) (xs : List ℚ) : List ℚ :=
  xs.drop (xs.length - n)

/-- The successive changes `closes[i] - closes[i-1]` for `i = 1 .. n-1`: the
loop both RSI implementations run over the close series. -/
def deltas (closes : List ℚ) : List ℚ :=
  List.zipWith (fun a b => a - b) closes.tail closes

namespace SmartScalper

/-- The gain series of `SmartScalper.calculate_rsi` (189-195):
`max(0, change)` for each delta. -/
def gains (closes : List ℚ) : List ℚ :=
  (deltas closes).map (fun change => max 0 change)

/-- The loss series of `SmartScalper.calculate_rsi` (189-195):
`max(0, -change)` for each delta. -/
def losses (closes : List ℚ) : List ℚ :=
  (deltas closes).map (fun change => max 0 (-change))

/-- `avg_gain` of `SmartScalper.calculate_rsi` (line 200): the mean of the
last `period` gains. -/
def avg_gain (closes : List ℚ) (period : ℕ) : ℚ :=
  (lastN period (gains closes)).sum / (period : ℚ)

/-- `avg_loss` of `SmartScalper.calculate_rsi` (line 201). -/
def avg_loss (closes : List ℚ) (period : ℕ) : ℚ :=
  (lastN period (losses closes)).sum / (period : ℚ)

/-- `SmartScalper.calculate_rsi` (smart_scalper.py 184-207).  Average gain /
average loss over the last `period` deltas; returns the neutral 50 on
insufficient data, and saturates to 100 when the average loss is zero with a
positive average gain (50 when both averages are zero). -/
def calculate_rsi (closes : List ℚ) (period : ℕ) : ℚ :=
  if closes.length < period + 1 then 50
  else if (gains closes).length < period then 50
  else if avg_loss closes period = 0 then (if 0 < avg_gain closes period then 100 else 50)
  else 100 - 100 / (1 + avg_gain closes period / avg_loss closes period)

/-- The inner `ema` helper of `SmartScalper.calculate_macd` (214-220): seeds
with the SMA of the first `period` points and folds the remaining points with
multiplier `2/(period+1)`, returning only the final value. -/
def ema (data : List ℚ) (period : ℕ) : ℚ :=
  let multiplier : ℚ := 2 / ((period : ℚ) + 1)
  (data.drop period).foldl
    (fun ema_val price => (price - ema_val) * multiplier + ema_val)
    ((data.take period).sum / (period : ℚ))

/-- `SmartScalper.calculate_macd` (209-230): `(macd, signal, histogram)`.
The signal line is always the `macd_line * 0.9` "simplified" approximation;
no EMA of a MACD series is ever taken here. -/
def calculate_macd (closes : List ℚ) : ℚ × ℚ × ℚ :=
  if closes.length < 26 then (0, 0, 0)
  else
    let ema12 := ema closes 12
    let ema26 := ema closes 26
    let macd_line := ema12 - ema26
    let signal_line := macd_line * (9 / 10)
    let histogram := macd_line - signal_line
    (macd_line, signal_line, histogram)

end SmartScalper

namespace TechnicalIndicators

/-- Round to nearest with ties to even, as Python's `round` behaves on exact
halves (the embedding works over exact rationals, so an exact half is the only
tie case). -/
def roundHalfEven (x : ℚ) : ℤ :=
  let f := x.floor
  let r := x - (f : ℚ)
  if r < 1 / 2 then f
  else if 1 / 2 < r then f + 1
  else if f % 2 = 0 then f else f + 1

/-- Python `round(x, 2)`. -/
def round2 (x : ℚ) : ℚ :=
  (roundHalfEven (x * 100) : ℚ) / 100

/-- The directional signal of an `IndicatorSignal` record. -/
inductive Signal
  | buy
  | sell
  | neutral
deriving DecidableEq, Repr

/-- The gain series of `TechnicalIndicators.calculate_rsi` (118-122):
`d if d > 0 else 0` for each delta. -/
def gains (prices : List ℚ) : List ℚ :=
  (deltas prices).map (fun d => if 0 < d then d else 0)

/-- The loss series of `TechnicalIndicators.calculate_rsi` (118-122):
`-d if d < 0 else 0` for each delta. -/
def losses (prices : List ℚ) : List ℚ :=
  (deltas prices).map (fun d => if d < 0 then -d else 0)

/-- `avg_gain` of `TechnicalIndicators.calculate_rsi` (line 125). -/
def avg_gain (prices : List ℚ) (period : ℕ) : ℚ :=
  (lastN period (gains prices)).sum / (period : ℚ)

/-- `avg_loss` of `TechnicalIndicators.calculate_rsi` (line 126). -/
def avg_loss (prices : List ℚ) (period : ℕ) : ℚ :=
  (lastN period (losses prices)).sum / (period : ℚ)

/-- The unrounded RSI of `TechnicalIndicators.calculate_rsi`
(utils/indicators.py 108-133): same averaging as the scalper's version, but
when the average loss is zero it returns 100 unconditionally — there is no
zero-average-gain special case here. -/
def rsi_raw (prices : List ℚ) (period : ℕ) : ℚ :=
  if prices.length < period + 1 then 50
  else if avg_loss prices period = 0 then 100
  else 100 - 100 / (1 + avg_gain prices period / avg_loss prices period)

/-- The `value` field of the `IndicatorSignal` returned by
`TechnicalIndicators.calculate_rsi`: the RSI rounded to two decimals (the
insufficient-data branch returns 50 unrounded, which rounds to itself). -/
def rsi_value (prices : List ℚ) (period : ℕ) : ℚ :=
  if prices.length < period + 1 then 50 else round2 (rsi_raw prices period)

/-- The `signal` field of `TechnicalIndicators.calculate_rsi` (136-147):
`sell` at RSI ≥ 70, `buy` at RSI ≤ 30, else `neutral` (`neutral` also on
insufficient data). -/
def rsi_signal (prices : List ℚ) (period : ℕ) : Signal :=
  if prices.length < period + 1 then .neutral
  else
    let rsi := rsi_raw prices period
    if 70 ≤ rsi then .sell
    else if rsi ≤ 30 then .buy
    else .neutral

/-- The inner `ema` helper of `TechnicalIndicators.calculate_macd` (188-196):
the full EMA series, seeded with the SMA of the first `period` points. -/
def ema_series (data : List ℚ) (period : ℕ) : List ℚ :=
  let multiplier : ℚ := 2 / ((period : ℚ) + 1)
  List.scanl (fun prev price => price * multiplier + prev * (1 - multiplier))
    ((data.take period).sum / (period : ℚ)) (data.drop period)

/-- The aligned MACD series of `TechnicalIndicators.calculate_macd` (198-205):
`ema_fast[i + (slow - fast)] - ema_slow[i]` for each index of the slow EMA. -/
def macd_series (prices : List ℚ) (fast slow : ℕ) : List ℚ :=
  List.zipWith (fun a b => a - b)
    ((ema_series prices fast).drop (slow - fast)) (ema_series prices slow)

/-- The numeric core of `TechnicalIndicators.calculate_macd` (179-216):
`(macd, signal, histogram)` current values.  When fewer than
`slow + signal_period` prices exist the whole computation is skipped and
`(0, 0, 0)` is returned; otherwise the signal line is the EMA of the MACD
series when that series has at least `signal_period` points, else the
constant series `[0]`. -/
def calculate_macd (prices : List ℚ) (fast slow signal_period : ℕ) : ℚ × ℚ × ℚ :=
  if prices.length < slow + signal_period then (0, 0, 0)
  else
    let macd_line := macd_series prices fast slow
    let signal_line :=
      if signal_period ≤ macd_line.length then ema_series macd_line signal_period
      else [0]
    let macd_current := macd_line.getLast?.getD 0
    let signal_current := signal_line.getLast?.getD 0
    (macd_current, signal_current, macd_current - signal_current)

end TechnicalIndicators

/-- Python dict assignment `d[k] = v` on an association list: replaces the
value at `k` in place when the key is present, appends otherwise. -/
def upsert {α : Type} (l : List (String × α)) (k : String) (v : α) : List (String × α) :=
  if l.any (fun kv => kv.1 == k) then
    l.map (fun kv => if kv.1 == k then (k, v) else kv)
  else l ++ [(k, v)]

/-- Python dict read `d.get(k)` / membership test on an association list. -/
def lookup {α : Type} : List (String × α) → String → Option α
  | [], _ => none
  | kv :: rest, k => if kv.1 == k then some kv.2 else lookup rest k

namespace SmartScalper

/-- 'long' or 'short'. -/
inductive Direction
  | long
  | short
deriving DecidableEq, Repr

/-- The fields of the position dict built by `SmartScalper.open_position`
(smart_scalper.py 598-612) that the monitoring and close logic reads
(`order_id`, `open_time` and `reasons` are bookkeeping the checked logic never
branches on). -/
structure Position where
  direction : Direction
  entry_price : ℚ
  quantity : ℚ
  stop_loss : ℚ
  take_profit : ℚ
  leverage : ℚ
  size_usd : ℚ
  highest_price : ℚ
  lowest_price : ℚ
  trailing_active : Bool
deriving DecidableEq, Repr

/-- The `TradeSignal` dataclass (96-108), numeric fields. -/
structure TradeSignal where
  symbol : String
  direction : Direction
  confidence : ℚ
  entry_price : ℚ
  stop_loss : ℚ
  take_profit : ℚ
  size_usd : ℚ
  leverage : ℚ
deriving DecidableEq, Repr

/-- The position record `open_position` stores for a successful order
(598-612): best prices seeded with the entry price, `trailing_active` off. -/
def position_of_signal (s : TradeSignal) (qty : ℚ) : Position :=
  { direction := s.direction
    entry_price := s.entry_price
    quantity := qty
    stop_loss := s.stop_loss
    take_profit := s.take_profit
    leverage := s.leverage
    size_usd := s.size_usd
    highest_price := s.entry_price
    lowest_price := s.entry_price
    trailing_active := false }

/-- `TRAILING_STOP_PCT = 1.0` (line 59). -/
def TRAILING_STOP_PCT : ℚ := 1

/-- `TRAILING_ACTIVATION = 2.0` (line 60). -/
def TRAILING_ACTIVATION : ℚ := 2

/-- Which exit rule `check_positions` reports when it closes a position. -/
inductive CloseReason
  | stopLoss
  | takeProfit
  | trailingStop
deriving DecidableEq, Repr

/-- One monitoring evaluation of `SmartScalper.check_positions` for one
position at one current price (644-691): update the best price seen, compute
the P&L percentage, then run the stop-loss, take-profit, trailing-arming and
trailing-stop checks in source order.  Each check that fires overwrites the
previous `reason`, modelled by the chain `r1`, `r2`, `r3` of `Option`
values; the returned reason is the final `r3` and the returned position
carries the updated best price and trailing flag. -/
def check_tick (pos : Position) (current_price : ℚ) : Position × Option CloseReason :=
  let pos1 :=
    match pos.direction with
    | .long => { pos with highest_price := max pos.highest_price current_price }
    | .short => { pos with lowest_price := min pos.lowest_price current_price }
  let pnl_pct :=
    match pos.direction with
    | .long => (current_price - pos.entry_price) / pos.entry_price * 100
    | .short => (pos.entry_price - current_price) / pos.entry_price * 100
  let r1 : Option CloseReason :=
    match pos.direction with
    | .long => if current_price ≤ pos.stop_loss then some .stopLoss else none
    | .short => if pos.stop_loss ≤ current_price then some .stopLoss else none
  let r2 : Option CloseReason :=
    match pos.direction with
    | .long => if pos.take_profit ≤ current_price then some .takeProfit else r1
    | .short => if current_price ≤ pos.take_profit then some .takeProfit else r1
  let pos2 :=
    if TRAILING_ACTIVATION ≤ pnl_pct then { pos1 with trailing_active := true } else pos1
  let r3 : Option CloseReason :=
    if pos2.trailing_active then
      match pos.direction with
      | .long =>
        if current_price ≤ pos2.highest_price * (1 - TRAILING_STOP_PCT / 100) then
          some .trailingStop
        else r2
      | .short =>
        if pos2.lowest_price * (1 + TRAILING_STOP_PCT / 100) ≤ current_price then
          some .trailingStop
        else r2
    else r2
  (pos2, r3)

/-- The stop-loss condition of `check_tick` (661-666), in isolation. -/
def stop_loss_hit (pos : Position) (current_price : ℚ) : Bool :=
  match pos.direction with
  | .long => decide (current_price ≤ pos.stop_loss)
  | .short => decide (pos.stop_loss ≤ current_price)

/-- The take-profit condition of `check_tick` (669-674), in isolation. -/
def take_profit_hit (pos : Position) (current_price : ℚ) : Bool :=
  match pos.direction with
  | .long => decide (pos.take_profit ≤ current_price)
  | .short => decide (current_price ≤ pos.take_profit)

/-- The trailing-stop condition of `check_tick` (677-690), in isolation: the
flag after this tick's best-price update and arming step, and the retrace of
the current price past the trailing distance from the
post-update best price. -/
def trailing_stop_hit (pos : Position) (current_price : ℚ) : Bool :=
  let best :=
    match pos.direction with
    | .long => max pos.highest_price current_price
    | .short => min pos.lowest_price current_price
  let pnl_pct :=
    match pos.direction with
    | .long => (current_price - pos.entry_price) / pos.entry_price * 100
    | .short => (pos.entry_price - current_price) / pos.entry_price * 100
  let armed := pos.trailing_active || decide (TRAILING_ACTIVATION ≤ pnl_pct)
  armed &&
    match pos.direction with
    | .long => decide (current_price ≤ best * (1 - TRAILING_STOP_PCT / 100))
    | .short => decide (best * (1 + TRAILING_STOP_PCT / 100) ≤ current_price)

/-- Feed a stream of ticker prices to `check_tick`, carrying the updated
position forward, until a tick closes the position: returns the final
position state together with the closing price and reason, or `none` when
the stream ends with the position still open.  This is the per-position
behaviour of the `check_positions` polling loop. -/
def simulate (pos : Position) : List ℚ → Position × Option (ℚ × CloseReason)
  | [] => (pos, none)
  | p :: rest =>
    match check_tick pos p with
    | (pos', some r) => (pos', some (p, r))
    | (pos', none) => simulate pos' rest

/-- `COOLDOWN_MINUTES = 3` (line 71). -/
def COOLDOWN_MINUTES : ℚ := 3

/-- `SmartScalper.is_on_cooldown` (538-543): a symbol is cooling down when it
was marked less than `COOLDOWN_MINUTES * 60` seconds ago. -/
def is_on_cooldown (cooldowns : List (String × ℚ)) (symbol : String) (now : ℚ) : Bool :=
  match lookup cooldowns symbol with
  | none => false
  | some t => decide (now - t < COOLDOWN_MINUTES * 60)

/-- `SmartScalper.set_cooldown` (545-547). -/
def set_cooldown (cooldowns : List (String × ℚ)) (symbol : String) (now : ℚ) :
    List (String × ℚ) :=
  upsert cooldowns symbol now

/-- The mutable `SmartScalper` fields the open/close transitions touch:
the position map, the cooldown map and the running statistics. -/
structure ScalperState where
  positions : List (String × Position)
  cooldowns : List (String × ℚ)
  trades_today : ℕ
  daily_pnl : ℚ
  total_pnl : ℚ
  wins : ℕ
  losses : ℕ
deriving DecidableEq, Repr

/-- The state effect of the success branch of `SmartScalper.open_position`
(594-617): record the position, call `set_cooldown` for the symbol, and bump
`trades_today`.  (The failure branches leave the state untouched.) -/
def open_position (st : ScalperState) (signal : TradeSignal) (qty : ℚ) (now : ℚ) :
    ScalperState :=
  { st with
    positions := upsert st.positions signal.symbol (position_of_signal signal qty)
    cooldowns := set_cooldown st.cooldowns signal.symbol now
    trades_today := st.trades_today + 1 }

/-- The state effect of `SmartScalper.close_position` (705-742) when the
close order succeeds: add the realized P&L to the daily and total totals,
tally the win or loss, and delete the position.  No cooldown is touched.
When the symbol has no tracked position the method returns at once. -/
def close_position (st : ScalperState) (symbol : String) (pnl_usd : ℚ) : ScalperState :=
  match lookup st.positions symbol with
  | none => st
  | some _ =>
    { st with
      daily_pnl := st.daily_pnl + pnl_usd
      total_pnl := st.total_pnl + pnl_usd
      wins := if 0 < pnl_usd then st.wins + 1 else st.wins
      losses := if 0 < pnl_usd then st.losses else st.losses + 1
      positions := st.positions.filter (fun kv => !(kv.1 == symbol)) }

/-- `MAX_DAILY_LOSS = 0.10` (line 46). -/
def MAX_DAILY_LOSS : ℚ := 1 / 10

/-- The daily-limit safety check of `SmartScalper.open_position` (561-563):
`abs(self.daily_pnl) > self.equity * MAX_DAILY_LOSS` blocks a new open. -/
def open_daily_limit_hit (daily_pnl equity : ℚ) : Bool :=
  decide (equity * MAX_DAILY_LOSS < |daily_pnl|)

/-- The daily-limit stop condition of the `SmartScalper.run` main loop
(776-778): the same `abs(self.daily_pnl) > self.equity * MAX_DAILY_LOSS`
comparison halts the loop. -/
def run_daily_limit_hit (daily_pnl equity : ℚ) : Bool :=
  decide (equity * MAX_DAILY_LOSS < |daily_pnl|)

end SmartScalper

namespace RiskManager

/-- The `RiskLimits` dataclass (utils/risk_manager.py 12-22), the fields
`can_open_position` reads. -/
structure RiskLimits where
  max_position_size_usd : ℚ
  max_total_exposure_usd : ℚ
  max_daily_loss_usd : ℚ
  max_daily_trades : ℕ
deriving DecidableEq, Repr

/-- The mutable `RiskManager` fields (36-44): daily counters and the
open-position map keyed by order id (of which the exposure bookkeeping only
reads `size_usd`). -/
structure RiskState where
  daily_pnl : ℚ
  daily_trades : ℕ
  open_positions : List (String × ℚ)
  total_exposure : ℚ
deriving DecidableEq, Repr

/-- The `RiskManager.__init__` state: no positions, zero counters. -/
def initState : RiskState :=
  { daily_pnl := 0, daily_trades := 0, open_positions := [], total_exposure := 0 }

/-- Which check produced the `reason` string of `can_open_position`. -/
inductive Reason
  | dailyLoss
  | dailyTrades
  | positionSize
  | exposure
  | ok
deriving DecidableEq, Repr

/-- `RiskManager.can_open_position` (67-97): the four checks in source order,
short-circuiting on the first failure.  (`_check_daily_reset`, a wall-clock
day rollover of the counters run before the checks, is outside this model:
the claims quantify over all counter states, which subsumes the reset.) -/
def can_open_position (lim : RiskLimits) (st : RiskState) (size_usd : ℚ) : Bool × Reason :=
  if st.daily_pnl ≤ -lim.max_daily_loss_usd then (false, .dailyLoss)
  else if lim.max_daily_trades ≤ st.daily_trades then (false, .dailyTrades)
  else if lim.max_position_size_usd < size_usd then (false, .positionSize)
  else if lim.max_total_exposure_usd < st.total_exposure + size_usd then (false, .exposure)
  else (true, .ok)

/-- `RiskManager.record_trade` (99-114): bump the trade count, store the
position under its order id (a dict assignment: an existing entry under the
same id is overwritten) and add its size to the exposure. -/
def record_trade (st : RiskState) (order_id : String) (size_usd : ℚ) : RiskState :=
  { st with
    daily_trades := st.daily_trades + 1
    open_positions := Scalper.upsert st.open_positions order_id size_usd
    total_exposure := st.total_exposure + size_usd }

/-- `RiskManager.record_close` (116-125): when the order id is tracked, pop
it and subtract its recorded size from the exposure; in every case add the
realized P&L to the daily total. -/
def record_close (st : RiskState) (order_id : String) (pnl : ℚ) : RiskState :=
  let st1 :=
    match lookup st.open_positions order_id with
    | none => st
    | some sz =>
      { st with
        open_positions := st.open_positions.filter (fun kv => !(kv.1 == order_id))
        total_exposure := st.total_exposure - sz }
  { st1 with daily_pnl := st1.daily_pnl + pnl }

/-- The §3 exposure invariant: `total_exposure` equals the sum of `size_usd`
over the tracked open positions. -/
def exposure_invariant (st : RiskState) : Prop :=
  st.total_exposure = (st.open_positions.map Prod.snd).sum

instance (st : RiskState) : Decidable (exposure_invariant st) := by
  unfold exposure_invariant; infer_instance

end RiskManager

/-! ## Concrete inputs for the counterexamples and witnesses -/

/-- End-to-end scenario 1's close series: 15 points, mostly falling. -/
def scenario1_closes : List ℚ :=
  [100, 102, 101, 105, 107, 103, 99, 98, 97, 96, 95, 94, 93, 92, 91]

/-- 35 closes: 34 flat zeros and one final jump.  Long enough for every MACD
guard (`35 ≥ 26` and `35 ≥ 26 + 9`), and chosen so that every intermediate
EMA value is an integer. -/
def macd_closes : List ℚ :=
  List.replicate 34 0 ++ [1755]

namespace SmartScalper

/-- A long position with an armed trailing stop whose best seen price is
above the entry, about to be evaluated at a price below its stop-loss. -/
def armedLongPos : Position :=
  { direction := .long
    entry_price := 100
    quantity := 1
    stop_loss := 98
    take_profit := 104
    leverage := 5
    size_usd := 10
    highest_price := 105
    lowest_price := 100
    trailing_active := true }

/-- End-to-end scenario 2's signal: long, entry 100, stop 98, target 104. -/
def scenario2Signal : TradeSignal :=
  { symbol := "cmt_ethusdt"
    direction := .long
    confidence := 80
    entry_price := 100
    stop_loss := 98
    take_profit := 104
    size_usd := 10
    leverage := 5 }

/-- The freshly opened position of scenario 2. -/
def scenario2Pos : Position :=
  position_of_signal scenario2Signal 1

/-- The scalper state right after construction: nothing tracked. -/
def emptyState : ScalperState :=
  { positions := []
    cooldowns := []
    trades_today := 0
    daily_pnl := 0
    total_pnl := 0
    wins := 0
    losses := 0 }

/-- A state holding one open position and no cooldowns. -/
def oneOpenState : ScalperState :=
  { emptyState with positions := [("cmt_ethusdt", scenario2Pos)] }

end SmartScalper

namespace RiskManager

/-- The `RiskLimits` dataclass defaults (utils/risk_manager.py 12-22). -/
def defaultLimits : RiskLimits :=
  { max_position_size_usd := 100
    max_total_exposure_usd := 500
    max_daily_loss_usd := 50
    max_daily_trades := 50 }

/-- A clean state carrying $450 of exposure in two positions. -/
def exposedState : RiskState :=
  { daily_pnl := 0
    daily_trades := 2
    open_positions := [("order-1", 250), ("order-2", 200)]
    total_exposure := 450 }

end RiskManager

/-! ## Theorems -/

/-- The delta series of a flat price list is all zeros. -/
theorem deltas_replicate (n : ℕ) (c : ℚ) :
    deltas (List.replicate n c) = List.replicate (n - 1) 0 := by
  unfold deltas
  rw [List.tail_replicate, List.zipWith_replicate]
  congr 1
  · omega
  · ring

namespace SmartScalper

set_option maxHeartbeats 1000000 in
/-- The reason `check_tick` reports is the last condition that fired, which
is equivalent to a nested conditional giving the trailing stop the highest
priority and the stop loss the lowest. -/
theorem check_tick_reason_eq (pos : Position) (p : ℚ) :
    (check_tick pos p).2 =
      (if trailing_stop_hit pos p then some CloseReason.trailingStop
       else if take_profit_hit pos p then some CloseReason.takeProfit
       else if stop_loss_hit pos p then some CloseReason.stopLoss
       else none) := by
  obtain ⟨d, e, q, sl, tp, lev, sz, hi, lo, tr⟩ := pos
  cases d <;> cases tr <;>
    unfold check_tick trailing_stop_hit take_profit_hit stop_loss_hit <;>
    dsimp only [TRAILING_ACTIVATION, TRAILING_STOP_PCT] <;>
    split_ifs <;>
    simp_all <;>
    linarith

/-- A monitoring evaluation never clears the trailing flag: the only write
is the arming step, which sets it to `true`. -/
theorem check_tick_trailing_mono (pos : Position) (p : ℚ)
    (h : pos.trailing_active = true) : ((check_tick pos p).1).trailing_active = true := by
  obtain ⟨d, e, q, sl, tp, lev, sz, hi, lo, tr⟩ := pos
  dsimp only at h
  subst h
  cases d <;> unfold check_tick <;> dsimp only <;> split_ifs <;> rfl

/-- The scalper's gain series has one entry per consecutive pair. -/
theorem gains_length (closes : List ℚ) :
    (gains closes).length = closes.length - 1 := by
  unfold gains deltas
  rw [List.length_map, List.length_zipWith, List.length_tail]
  omega

/-- On a flat series every delta is zero, so the average loss vanishes. -/
theorem avg_loss_replicate (n : ℕ) (c : ℚ) :
    avg_loss (List.replicate n c) 14 = 0 := by
  unfold avg_loss losses lastN
  rw [deltas_replicate]
  simp

/-- On a flat series the average gain vanishes as well. -/
theorem avg_gain_replicate (n : ℕ) (c : ℚ) :
    avg_gain (List.replicate n c) 14 = 0 := by
  unfold avg_gain gains lastN
  rw [deltas_replicate]
  simp

end SmartScalper

/-- The loss series of the indicators module agrees pointwise with the
scalper's: `-d if d < 0 else 0` is `max(0, -d)`. -/
theorem ti_losses_eq (prices : List ℚ) :
    TechnicalIndicators.losses prices = SmartScalper.losses prices := by
  unfold TechnicalIndicators.losses SmartScalper.losses
  apply List.map_congr_left
  intro d _
  rcases lt_or_le d 0 with h | h
  · rw [if_pos h, max_eq_right (by linarith)]
  · rw [if_neg (not_lt.mpr h), max_eq_left (by linarith)]

/-- Both RSI implementations compute the same average loss. -/
theorem ti_avg_loss_eq (prices : List ℚ) (period : ℕ) :
    TechnicalIndicators.avg_loss prices period = SmartScalper.avg_loss prices period := by
  unfold TechnicalIndicators.avg_loss SmartScalper.avg_loss
  rw [ti_losses_eq]

/-- Removing a key from an association list makes its lookup fail. -/
theorem lookup_filter_ne (l : List (String × ℚ)) (k : String) :
    lookup (l.filter (fun kv => !(kv.1 == k))) k = none := by
  induction l with
  | nil => rfl
  | cons kv rest ih =>
    by_cases h : kv.1 = k
    · simp [List.filter_cons, h, ih]
    · simp [List.filter_cons, lookup, h, ih]

/-- A key whose lookup fails is matched by no entry. -/
theorem any_eq_false_of_lookup_none (l : List (String × ℚ)) (k : String)
    (h : lookup l k = none) : l.any (fun kv => kv.1 == k) = false := by
  induction l with
  | nil => rfl
  | cons kv rest ih =>
    by_cases hk : kv.1 = k
    · simp [lookup, hk] at h
    · simp [lookup, hk] at h
      simp [hk, ih h]

/-- Inserting a fresh key appends the new entry. -/
theorem upsert_of_lookup_none (l : List (String × ℚ)) (k : String) (v : ℚ)
    (h : lookup l k = none) : upsert l k v = l ++ [(k, v)] := by
  unfold upsert
  rw [any_eq_false_of_lookup_none l k h]
  simp

/-- Removing the (unique) entry of key `k` drops exactly its value from the
sum of the values. -/
theorem sum_filter_ne_of_lookup (l : List (String × ℚ)) (k : String) (v : ℚ)
    (hnd : (l.map Prod.fst).Nodup) (hl : lookup l k = some v) :
    ((l.filter (fun kv => !(kv.1 == k))).map Prod.snd).sum
      = (l.map Prod.snd).sum - v := by
  induction l with
  | nil => simp [lookup] at hl
  | cons kv rest ih =>
    obtain ⟨k1, v1⟩ := kv
    simp only [List.map_cons, List.nodup_cons] at hnd
    by_cases hk : k1 = k
    · subst hk
      simp [lookup] at hl
      subst hl
      have hrest : rest.filter (fun kv => !(kv.1 == k1)) = rest := by
        rw [List.filter_eq_self]
        intro a ha
        have hne : a.1 ≠ k1 := by
          intro he
          exact hnd.1 (he ▸ List.mem_map_of_mem Prod.fst ha)
        simp [hne]
      simp [List.filter_cons, hrest]
    · simp [lookup, hk] at hl
      simp [List.filter_cons, hk, ih hnd.2 hl]
      ring

namespace Claims

open SmartScalper TechnicalIndicators RiskManager

/-- **C1**, counterexample: a long position (entry 100, stop-loss 98,
take-profit 104, trailing armed with best price 105) evaluated at price 97
has crossed its stop-loss threshold, yet `check_positions` reports
`Trailing Stop`, not `Stop Loss` — the claimed stop-loss-first priority does
not hold. -/
theorem c1_counterexample :
    (check_tick armedLongPos 97).2 = some CloseReason.trailingStop ∧
      (97 : ℚ) ≤ armedLongPos.stop_loss ∧
      (check_tick armedLongPos 97).2 ≠ some CloseReason.stopLoss := by
  with_unfolding_all decide

/-- **C1** (amended): each monitoring evaluation of `check_positions`
reports exactly one exit trigger, but because the stop-loss, take-profit and
trailing-stop checks run in that source order with each later hit
overwriting the reason, the effective priority is the reverse of the claimed
one: trailing-stop first, then take-profit, then stop-loss. -/
theorem c1_exit_priority :
    (∀ pos p, ((check_tick pos p).2 = some CloseReason.trailingStop ↔
        trailing_stop_hit pos p = true)) ∧
    (∀ pos p, ((check_tick pos p).2 = some CloseReason.takeProfit ↔
        trailing_stop_hit pos p = false ∧ take_profit_hit pos p = true)) ∧
    (∀ pos p, ((check_tick pos p).2 = some CloseReason.stopLoss ↔
        trailing_stop_hit pos p = false ∧ take_profit_hit pos p = false ∧
          stop_loss_hit pos p = true)) ∧
    (∀ pos p, ((check_tick pos p).2 = none ↔
        trailing_stop_hit pos p = false ∧ take_profit_hit pos p = false ∧
          stop_loss_hit pos p = false)) := by
  refine ⟨?_, ?_, ?_, ?_⟩ <;> intro pos p <;> rw [check_tick_reason_eq] <;>
    cases h1 : trailing_stop_hit pos p <;> cases h2 : take_profit_hit pos p <;>
    cases h3 : stop_loss_hit pos p <;> simp

/-- **C2**, counterexample: fed the ticks 100, 101, 103, 105, 103.5, the
scenario-2 position closes on the 105 tick with reason `Take Profit`
(105 ≥ 104), not on the 103.5 tick with a trailing stop. -/
theorem c2_counterexample :
    (simulate scenario2Pos [100, 101, 103, 105, 207 / 2]).2 =
        some (105, CloseReason.takeProfit) ∧
      (simulate scenario2Pos [100, 101, 103, 105, 207 / 2]).2 ≠
        some (207 / 2, CloseReason.trailingStop) := by
  with_unfolding_all decide

/-- **C2** (amended): on the ticks 100, 101, 103, 105, 103.5 the trailing
stop arms on the 103 tick (the first with unrealized P&L ≥ +2%) and
`highest_price` does reach 105, but the position closes on the 105 tick
itself with reason take-profit (105 ≥ 104); the 103.5 tick is never
evaluated. -/
theorem c2_scenario :
    (simulate scenario2Pos [100, 101]).1.trailing_active = false ∧
      (simulate scenario2Pos [100, 101]).2 = none ∧
      (simulate scenario2Pos [100, 101, 103]).1.trailing_active = true ∧
      (simulate scenario2Pos [100, 101, 103]).2 = none ∧
      (simulate scenario2Pos [100, 101, 103, 105, 207 / 2]).1.highest_price = 105 ∧
      (simulate scenario2Pos [100, 101, 103, 105, 207 / 2]).2 =
        some (105, CloseReason.takeProfit) := by
  with_unfolding_all decide

/-- **C3**, counterexample: a successful `open_position` transition from the
clean state does change the symbol's cooldown state (it starts the cooldown),
and a `close_position` transition leaves the cooldown map exactly as it was
(here: empty) — the opposite of the claimed behaviour on both transitions. -/
theorem c3_counterexample :
    (open_position emptyState scenario2Signal 1 17).cooldowns ≠ emptyState.cooldowns ∧
      (open_position emptyState scenario2Signal 1 17).cooldowns = [("cmt_ethusdt", 17)] ∧
      (close_position oneOpenState "cmt_ethusdt" 5).cooldowns = oneOpenState.cooldowns ∧
      (close_position oneOpenState "cmt_ethusdt" 5).cooldowns = [] := by
  with_unfolding_all decide

/-- **C3** (amended): the re-entry cooldown timer is started when a position
is opened, not when it is closed: every successful `open_position` sets the
symbol's cooldown to the open time, every `close_position` leaves the
cooldown map unchanged, and a set cooldown blocks the symbol for
`COOLDOWN_MINUTES * 60` = 180 seconds (3 minutes). -/
theorem c3_cooldown_set_on_open :
    (∀ st signal qty now,
        (open_position st signal qty now).cooldowns =
          set_cooldown st.cooldowns signal.symbol now) ∧
    (∀ st symbol pnl, (close_position st symbol pnl).cooldowns = st.cooldowns) ∧
    (∀ symbol t now,
        is_on_cooldown [(symbol, t)] symbol now =
          decide (now - t < COOLDOWN_MINUTES * 60)) := by
  refine ⟨fun st signal qty now => rfl, ?_, ?_⟩
  · intro st symbol pnl
    unfold close_position
    cases lookup st.positions symbol <;> rfl
  · intro symbol t now
    simp [is_on_cooldown, lookup]

/-- **C4**, counterexample: on a flat series of 15 equal closes,
`TechnicalIndicators.calculate_rsi` reports 100, not the claimed 50 (its
zero-average-loss branch ignores the average gain); only the scalper's copy
returns 50. -/
theorem c4_counterexample :
    TechnicalIndicators.rsi_value (List.replicate 15 100) 14 = 100 ∧
      TechnicalIndicators.rsi_value (List.replicate 15 100) 14 ≠ 50 ∧
      SmartScalper.calculate_rsi (List.replicate 15 100) 14 = 50 := by
  with_unfolding_all decide

/-- **C4** (amended): on a flat series (length ≥ 15, period 14)
`SmartScalper.calculate_rsi` returns 50 but `TechnicalIndicators.calculate_rsi`
returns 100; in general, whenever the average loss over the period is zero,
the scalper's RSI is 100 unless the average gain is also zero (then 50),
while the indicators-module RSI is 100 unconditionally — the claimed
behaviour holds only for `SmartScalper.calculate_rsi`. -/
theorem c4_rsi_flat_and_zero_loss :
    (∀ n c, 15 ≤ n → SmartScalper.calculate_rsi (List.replicate n c) 14 = 50) ∧
    (∀ n c, 15 ≤ n → TechnicalIndicators.rsi_value (List.replicate n c) 14 = 100) ∧
    (∀ closes, 15 ≤ closes.length → SmartScalper.avg_loss closes 14 = 0 →
        (SmartScalper.calculate_rsi closes 14 =
          if 0 < SmartScalper.avg_gain closes 14 then 100 else 50) ∧
        TechnicalIndicators.rsi_raw closes 14 = 100) := by
  have key : ∀ closes : List ℚ, 15 ≤ closes.length → SmartScalper.avg_loss closes 14 = 0 →
      (SmartScalper.calculate_rsi closes 14 =
        if 0 < SmartScalper.avg_gain closes 14 then 100 else 50) ∧
      TechnicalIndicators.rsi_raw closes 14 = 100 := by
    intro closes hlen hz
    constructor
    · unfold SmartScalper.calculate_rsi
      rw [if_neg (by omega), if_neg (by rw [SmartScalper.gains_length]; omega), if_pos hz]
    · unfold TechnicalIndicators.rsi_raw
      rw [if_neg (by omega), if_pos (by rw [ti_avg_loss_eq]; exact hz)]
  refine ⟨?_, ?_, key⟩
  · intro n c hn
    have h := key (List.replicate n c) (by simpa using hn) (SmartScalper.avg_loss_replicate n c)
    rw [h.1, SmartScalper.avg_gain_replicate]
    norm_num
  · intro n c hn
    have h := key (List.replicate n c) (by simpa using hn) (SmartScalper.avg_loss_replicate n c)
    unfold TechnicalIndicators.rsi_value
    rw [if_neg (by simp; omega), h.2]
    with_unfolding_all decide

/-- **C4**, witness: a flat series of 20 closes at price 7 has zero average
loss; the indicators-module RSI reports 100 on it and the scalper's reports
50, as the amended claim states. -/
theorem c4_witness :
    15 ≤ (List.replicate 20 (7 : ℚ)).length ∧
      SmartScalper.avg_loss (List.replicate 20 (7 : ℚ)) 14 = 0 ∧
      TechnicalIndicators.rsi_raw (List.replicate 20 (7 : ℚ)) 14 = 100 ∧
      SmartScalper.calculate_rsi (List.replicate 20 (7 : ℚ)) 14 = 50 :=
  ⟨by with_unfolding_all decide, by with_unfolding_all decide,
    (c4_rsi_flat_and_zero_loss.2.2 (List.replicate 20 7) (by with_unfolding_all decide)
      (by with_unfolding_all decide)).2,
    c4_rsi_flat_and_zero_loss.1 20 7 (by norm_num)⟩

/-- **C5**, counterexample: on the scenario-1 series both RSI
implementations compute exactly 32, which is not ≤ 30 — the series is not
flagged oversold. -/
theorem c5_counterexample :
    SmartScalper.calculate_rsi scenario1_closes 14 = 32 ∧
      TechnicalIndicators.rsi_value scenario1_closes 14 = 32 ∧
      ¬ SmartScalper.calculate_rsi scenario1_closes 14 ≤ 30 := by
  with_unfolding_all decide

/-- **C5** (amended): on the scenario-1 series RSI with period 14 computes
the finite value 32 in both implementations; 32 is above the 30 oversold
threshold, so the indicator signal is `neutral`, not `buy`. -/
theorem c5_rsi_is_32 :
    SmartScalper.calculate_rsi scenario1_closes 14 = 32 ∧
      TechnicalIndicators.rsi_value scenario1_closes 14 = 32 ∧
      (30 : ℚ) < 32 ∧
      TechnicalIndicators.rsi_signal scenario1_closes 14 = Signal.neutral := by
  with_unfolding_all decide

/-- **C6**, counterexample: a 35-point close series (long enough for every
guard) on which the fusion engine's `SmartScalper.calculate_macd` reports
signal 126 = 0.9 × macd even though enough points exist for the
EMA(9)-of-MACD-series signal line, which equals 28 on the same series
(as `TechnicalIndicators.calculate_macd` computes). -/
theorem c6_counterexample :
    26 + 9 ≤ macd_closes.length ∧
      (SmartScalper.calculate_macd macd_closes).1 = 140 ∧
      (SmartScalper.calculate_macd macd_closes).2.1 = 126 ∧
      (TechnicalIndicators.calculate_macd macd_closes 12 26 9).2.1 = 28 ∧
      (SmartScalper.calculate_macd macd_closes).2.1 ≠
        (TechnicalIndicators.calculate_macd macd_closes 12 26 9).2.1 := by
  with_unfolding_all decide

/-- **C6** (amended): the MACD computation used by the fusion engine
(`SmartScalper.calculate_macd`) never takes an EMA of the MACD series — its
signal line is always `0.9 × macd`, however many points exist.  The
EMA(signal_period)-of-MACD-series signal line exists only in
`TechnicalIndicators.calculate_macd`, whose short-history path returns
`(0, 0, 0)` outright (and whose inner `[0]` fallback is unreachable once its
length guard passes, since the MACD series then has at least
`signal_period` points). -/
theorem c6_signal_always_simplified :
    (∀ closes, (SmartScalper.calculate_macd closes).2.1 =
        (SmartScalper.calculate_macd closes).1 * (9 / 10)) ∧
    (∀ prices, prices.length < 26 + 9 →
        TechnicalIndicators.calculate_macd prices 12 26 9 = (0, 0, 0)) ∧
    (∀ prices, ¬ prices.length < 26 + 9 →
        9 ≤ (TechnicalIndicators.macd_series prices 12 26).length) := by
  refine ⟨?_, ?_, ?_⟩
  · intro closes
    unfold SmartScalper.calculate_macd
    split
    · norm_num
    · dsimp only
  · intro prices h
    unfold TechnicalIndicators.calculate_macd
    rw [if_pos h]
  · intro prices h
    simp only [TechnicalIndicators.macd_series, TechnicalIndicators.ema_series,
      List.length_zipWith, List.length_scanl, List.length_drop]
    omega

/-- **C7**: `can_open_position` returns `False` whenever
`total_exposure + size > max_total_exposure_usd`, whatever the other
counters say, and its four checks run in the order daily-loss,
daily-trade-count, per-trade position size, total exposure, short-circuiting
with the reason of the first failed check. -/
theorem c7_can_open_checks :
    (∀ lim st size_usd, lim.max_total_exposure_usd < st.total_exposure + size_usd →
        (can_open_position lim st size_usd).1 = false) ∧
    (∀ lim st size_usd, st.daily_pnl ≤ -lim.max_daily_loss_usd →
        can_open_position lim st size_usd = (false, Reason.dailyLoss)) ∧
    (∀ lim st size_usd, ¬ st.daily_pnl ≤ -lim.max_daily_loss_usd →
        lim.max_daily_trades ≤ st.daily_trades →
        can_open_position lim st size_usd = (false, Reason.dailyTrades)) ∧
    (∀ lim st size_usd, ¬ st.daily_pnl ≤ -lim.max_daily_loss_usd →
        ¬ lim.max_daily_trades ≤ st.daily_trades →
        lim.max_position_size_usd < size_usd →
        can_open_position lim st size_usd = (false, Reason.positionSize)) ∧
    (∀ lim st size_usd, ¬ st.daily_pnl ≤ -lim.max_daily_loss_usd →
        ¬ lim.max_daily_trades ≤ st.daily_trades →
        ¬ lim.max_position_size_usd < size_usd →
        lim.max_total_exposure_usd < st.total_exposure + size_usd →
        can_open_position lim st size_usd = (false, Reason.exposure)) ∧
    (∀ lim st size_usd, ¬ st.daily_pnl ≤ -lim.max_daily_loss_usd →
        ¬ lim.max_daily_trades ≤ st.daily_trades →
        ¬ lim.max_position_size_usd < size_usd →
        ¬ lim.max_total_exposure_usd < st.total_exposure + size_usd →
        can_open_position lim st size_usd = (true, Reason.ok)) := by
  refine ⟨?_, ?_, ?_, ?_, ?_, ?_⟩ <;> intro lim st size_usd <;>
    unfold can_open_position <;> intros <;> split_ifs <;> simp_all

/-- **C7**, witness: with the default limits and $450 already at risk, a
$100 request breaches the $500 exposure cap and is rejected. -/
theorem c7_witness :
    defaultLimits.max_total_exposure_usd < exposedState.total_exposure + 100 ∧
      (can_open_position defaultLimits exposedState 100).1 = false :=
  ⟨by with_unfolding_all decide,
    c7_can_open_checks.1 defaultLimits exposedState 100 (by with_unfolding_all decide)⟩

/-- **C8**, counterexample: two `record_trade` calls with the same order id
leak exposure — the dict entry is overwritten but both sizes are added, so
`total_exposure` reads 30 while the tracked positions sum to 20, breaking
the invariant that every `record_trade`/`record_close` sequence was claimed
to preserve. -/
theorem c8_counterexample :
    exposure_invariant initState ∧
      exposure_invariant (record_trade initState "order-1" 10) ∧
      ¬ exposure_invariant (record_trade (record_trade initState "order-1" 10) "order-1" 20) ∧
      (record_trade (record_trade initState "order-1" 10) "order-1" 20).total_exposure = 30 ∧
      ((record_trade (record_trade initState "order-1" 10) "order-1" 20).open_positions.map
          Prod.snd).sum = 20 := by
  with_unfolding_all decide

/-- **C8** (amended): `total_exposure` equals the sum of `size_usd` over the
tracked positions initially; the equality is preserved by every
`record_close` (keys are unique, as Python dict keys are) and by every
`record_trade` whose order id is not already tracked — a duplicate
`record_trade` breaks it, as the counterexample shows.  Each position's
exposure is decremented exactly once: after a `record_close` the order id is
gone, and a `record_close` for an untracked id leaves `total_exposure`
unchanged, so a second close of the same id does not decrement again. -/
theorem c8_exposure_accounting :
    exposure_invariant initState ∧
    (∀ st order_id size_usd, lookup st.open_positions order_id = none →
        exposure_invariant st → exposure_invariant (record_trade st order_id size_usd)) ∧
    (∀ st order_id pnl, (st.open_positions.map Prod.fst).Nodup →
        exposure_invariant st → exposure_invariant (record_close st order_id pnl)) ∧
    (∀ st order_id pnl,
        lookup (record_close st order_id pnl).open_positions order_id = none) ∧
    (∀ st order_id pnl, lookup st.open_positions order_id = none →
        (record_close st order_id pnl).total_exposure = st.total_exposure) := by
  refine ⟨rfl, ?_, ?_, ?_, ?_⟩
  · intro st order_id size_usd h hinv
    unfold exposure_invariant record_trade
    dsimp only
    rw [upsert_of_lookup_none _ _ _ h]
    simp [exposure_invariant] at hinv
    simp [hinv]
  · intro st order_id pnl hnd hinv
    unfold exposure_invariant record_close
    rcases hml : lookup st.open_positions order_id with _ | sz
    · simpa [hml] using hinv
    · simp only [hml]
      rw [sum_filter_ne_of_lookup _ _ _ hnd hml]
      simp [exposure_invariant] at hinv
      rw [hinv]
  · intro st order_id pnl
    unfold record_close
    rcases hml : lookup st.open_positions order_id with _ | sz
    · simp only [hml]
    · simp only [hml]
      exact lookup_filter_ne _ _
  · intro st order_id pnl h
    unfold record_close
    rw [h]

/-- **C8**, witness: after recording one trade the state has unique keys and
satisfies the invariant, and closing that trade preserves it. -/
theorem c8_witness :
    ((record_trade initState "order-1" 10).open_positions.map Prod.fst).Nodup ∧
      exposure_invariant (record_trade initState "order-1" 10) ∧
      exposure_invariant (record_close (record_trade initState "order-1" 10) "order-1" 5) :=
  ⟨by with_unfolding_all decide, by with_unfolding_all decide,
    c8_exposure_accounting.2.2.1 (record_trade initState "order-1" 10) "order-1" 5
      (by with_unfolding_all decide) (by with_unfolding_all decide)⟩

/-- **C9**: `trailing_active` is monotone over a position's lifetime — it is
created `false` by `open_position`, and once any monitoring evaluation sets
it `true`, every later evaluation keeps it `true` (no code path resets it
before the position is removed on close). -/
theorem c9_trailing_monotone :
    (∀ s qty, (position_of_signal s qty).trailing_active = false) ∧
    (∀ pos p, pos.trailing_active = true → ((check_tick pos p).1).trailing_active = true) ∧
    (∀ pos ticks, pos.trailing_active = true →
        ((simulate pos ticks).1).trailing_active = true) := by
  refine ⟨fun s qty => rfl, check_tick_trailing_mono, ?_⟩
  intro pos ticks
  induction ticks generalizing pos with
  | nil => intro h; exact h
  | cons p rest ih =>
    intro h
    have hstep := check_tick_trailing_mono pos p h
    rcases hct : check_tick pos p with ⟨pos1, r⟩
    rw [hct] at hstep
    cases r with
    | none => simpa [simulate, hct] using ih pos1 hstep
    | some reason => simpa [simulate, hct] using hstep

/-- **C9**, witness: the armed long position stays armed through an
evaluation at price 97 (which closes it via the trailing stop). -/
theorem c9_witness :
    armedLongPos.trailing_active = true ∧
      ((check_tick armedLongPos 97).1).trailing_active = true :=
  ⟨rfl, c9_trailing_monotone.2.1 armedLongPos 97 rfl⟩

/-- **C6**, witness for the amended claim's short-history clause: a 3-point
series is gated to `(0, 0, 0)` by `TechnicalIndicators.calculate_macd`. -/
theorem c6_witness :
    ([(1 : ℚ), 2, 3] : List ℚ).length < 26 + 9 ∧
      TechnicalIndicators.calculate_macd [1, 2, 3] 12 26 9 = (0, 0, 0) :=
  ⟨by with_unfolding_all decide,
    c6_signal_always_simplified.2.1 [1, 2, 3] (by with_unfolding_all decide)⟩

/-- **C10**: the daily-loss kill switch is symmetric in sign — the
`open_position` safety check and the `run` loop's stop condition are the
same comparison of `|daily_pnl|` against `equity × 10%`, so a daily profit
beyond that bound blocks opens and halts the loop exactly as the equal loss
would. -/
theorem c10_daily_limit_symmetric :
    (∀ daily_pnl equity,
        open_daily_limit_hit daily_pnl equity = open_daily_limit_hit (-daily_pnl) equity) ∧
    (∀ daily_pnl equity,
        run_daily_limit_hit daily_pnl equity = run_daily_limit_hit (-daily_pnl) equity) ∧
    (∀ daily_pnl equity,
        open_daily_limit_hit daily_pnl equity = run_daily_limit_hit daily_pnl equity) ∧
    (∀ daily_pnl equity,
        open_daily_limit_hit daily_pnl equity = true ↔
          equity * MAX_DAILY_LOSS < |daily_pnl|) := by
  refine ⟨?_, ?_, fun _ _ => rfl, ?_⟩ <;> intro pnl equity <;>
    simp [open_daily_limit_hit, run_daily_limit_hit, abs_neg]

end Claims

end Scalper
